import Mathlib



/-!
Verification of the location scoring and ranking engine of the
socal-business-intelligence backend (backend/main.py), against its
natural-language specification.

Conventions of the embedding:
* Python floats are modelled as real numbers (coordinates, distances) or
  rational numbers (metric values and scores, where exact evaluation on
  concrete inputs is needed).
* Python `round(x, 1)` is modelled as rational rounding to one decimal
  (round half away from the floor; the binary-float half-even corner of
  CPython is not load-bearing for any property proved here).
* Python strings are modelled as `String`; `s.lower()` is modelled by
  mapping `Char.toLower` over the characters (ASCII inputs), and the
  Python substring test `needle in hay` by `List.IsInfix` on characters.
* Database rows that may be absent (`None`) are modelled with `Option`.
-/

/-- Model of the Python method `str.lower`, as the character list of the
lowercased string. -/
def lowerStr (s : String) : List Char := s.toList.map Char.toLower

/-- Model of the Python substring test `needle in hay`. -/
def substrIn (needle : String) (hay : List Char) : Bool :=
  decide (needle.toList <:+: hay)

/-- Model of Python `round(x, 1)`: round to one decimal place. -/
def round1 (x : ℚ) : ℚ := (round (10 * x) : ℤ) / 10

/-- Metric record of an area (table `AreaMetric` in main.py).
`apartment_count` is nullable in the schema, hence an `Option`. -/
structure AreaMetric where
  population_density : ℚ
  business_density : ℚ
  transport_score : ℚ
  apartment_count : Option ℤ
deriving DecidableEq

/-- Embedding of `_score_from_metrics` (main.py, lines 631-637): weighted
base score from normalized population density and transport score. -/
def score_from_metrics (metric : AreaMetric) : ℚ :=
  let pop_norm := max 0 (min 10 (metric.population_density / 1500))
  let transport_norm := max 0 (min 10 metric.transport_score)
  round1 (0.6 * pop_norm + 0.4 * transport_norm)

/-- The clamp operation as written in the specification, section 4.1:
`clamp(v, lo, hi)`. -/
def clamp (x lo hi : ℚ) : ℚ := max lo (min hi x)

/-! Term tables of `_calculate_search_score` (main.py, lines 1059-1150). -/

/-- Business types treated as restaurant-like (line 1071). -/
def restaurant_types : List String := ["restaurant", "food", "dining", "pizza", "cafe"]

/-- Beach related query terms (line 1081). -/
def beach_query_terms : List String := ["beach", "coastal", "waterfront"]

/-- Beach related name terms (line 1082). -/
def beach_name_terms : List String := ["beach", "coast", "marina"]

/-- Urban related query terms (line 1087). -/
def urban_query_terms : List String := ["downtown", "urban", "city", "center"]

/-- Urban related name terms (line 1088). -/
def urban_name_terms : List String := ["downtown", "center", "city"]

/-- Hill related query terms (line 1095). -/
def hill_query_terms : List String := ["hills", "hillside", "mountain"]

/-- Hill related name terms (line 1096). -/
def hill_name_terms : List String := ["hills", "heights", "ridge"]

/-- Density related query terms (line 1101). -/
def density_query_terms : List String := ["high", "dense", "busy", "crowded"]

/-- Transportation related query terms (line 1110). -/
def transit_query_terms : List String :=
  ["transit", "transport", "metro", "bus", "rail", "subway", "accessible", "connectivity"]

/-- Quality related query terms (line 1120). -/
def best_query_terms : List String := ["best", "top", "excellent", "great"]

/-- Generic business query terms (line 1130). -/
def business_query_terms : List String :=
  ["business", "commercial", "retail", "office", "store", "shop"]

/-- Literal pass-through queries (line 1139). -/
def general_queries : List String := ["all", "show", "list", "find", "search", ""]

/-- Model of the condition `business_type and business_type.lower() in
["restaurant", ...]` on line 1071: a `None` or empty business type is
falsy and fails the check. -/
def is_restaurant_type (business_type : Option String) : Bool :=
  match business_type with
  | none => false
  | some s => restaurant_types.any (fun t => decide (lowerStr s = t.toList))

/-- Disjunctive term matching `any(term in hay for term in terms)`. -/
def anyTermIn (terms : List String) (hay : List Char) : Bool :=
  terms.any (fun t => substrIn t hay)

/-- Final normalization step of `_calculate_search_score` (lines 1146-1150):
positive scores are clamped to [0, 10]; everything is rounded to one
decimal. -/
def normalize_score (score : ℚ) : ℚ :=
  round1 (if score > 0 then min 10 (max 0 score) else score)

/-- Embedding of `_calculate_search_score` (main.py, lines 1059-1150).
The query is pre-lowercased by the callers; the area and city names are
lowercased inside, exactly as in the source. -/
def calculate_search_score (query : String) (area_name : String) (city_name : String)
    (business_type : Option String) (base_score : ℚ) (metric : AreaMetric) : ℚ :=
  let score : ℚ :=
    if substrIn query (lowerStr area_name) || substrIn query (lowerStr city_name) then
      base_score * 1.5
    else if is_restaurant_type business_type then
      if metric.population_density > 8000 then base_score * 1.3
      else if metric.population_density > 5000 then base_score * 1.1
      else base_score * 0.8
    else if anyTermIn beach_query_terms query.toList then
      if anyTermIn beach_name_terms (lowerStr area_name) then base_score * 1.4
      else base_score * 0.3
    else if anyTermIn urban_query_terms query.toList then
      if anyTermIn urban_name_terms (lowerStr area_name) then base_score * 1.3
      else if metric.population_density > 10000 then base_score * 1.2
      else base_score * 0.7
    else if anyTermIn hill_query_terms query.toList then
      if anyTermIn hill_name_terms (lowerStr area_name) then base_score * 1.3
      else base_score * 0.5
    else if anyTermIn density_query_terms query.toList then
      if metric.population_density > 10000 then base_score * 1.4
      else if metric.population_density > 7000 then base_score * 1.2
      else base_score * 0.6
    else if anyTermIn transit_query_terms query.toList then
      if metric.transport_score > 8 then base_score * 1.5
      else if metric.transport_score > 6 then base_score * 1.3
      else if metric.transport_score > 4 then base_score * 1.1
      else base_score * 0.5
    else if anyTermIn best_query_terms query.toList then
      if base_score > 7 then base_score * 1.2
      else if base_score > 5 then base_score * 1.0
      else base_score * 0.8
    else if anyTermIn business_query_terms query.toList then
      if metric.business_density > 80 then base_score * 1.3
      else if metric.business_density > 60 then base_score * 1.1
      else base_score * 0.9
    else if query ∈ general_queries then
      base_score
    else
      (0 : ℚ)
  normalize_score score

/-- Candidate inclusion step of `search_locations` (main.py, lines 693-694):
only candidates with a strictly positive search score enter the result
list. -/
def search_results {α : Type} (score : α → ℚ) (cands : List α) : List α :=
  cands.filter (fun c => decide (score c > 0))

/-! Filter engine: `_passes_filters` (main.py, lines 989-1045). -/

/-- Reference area record (table `Area`), as used by the filter engine:
name, city, and parsed coordinates. -/
structure Area where
  name : String
  city : String
  latitude : ℝ
  longitude : ℝ

/-- Map bounds dictionary; every side is optional and defaults to the
planet-wide bound (lines 1037-1043). -/
structure MapBounds where
  north : Option ℝ
  south : Option ℝ
  east : Option ℝ
  west : Option ℝ

/-- Filter set of the advanced search (class `AdvancedFilters`,
lines 249-261); every field is optional. -/
structure AdvancedFilters where
  counties : Option (List String)
  population_density_min : Option ℚ
  population_density_max : Option ℚ
  business_density_min : Option ℚ
  business_density_max : Option ℚ
  transport_score_min : Option ℚ
  transport_score_max : Option ℚ
  apartment_count_min : Option ℤ
  apartment_count_max : Option ℤ
  radius_miles_min : Option ℝ
  radius_miles_max : Option ℝ
  map_bounds : Option MapBounds

/-- Embedding of `COUNTY_MAPPING` (main.py, lines 198-237). -/
def county_mapping : List (String × String) :=
  [("Downtown LA", "Los Angeles County"),
   ("Santa Monica", "Los Angeles County"),
   ("Beverly Hills", "Los Angeles County"),
   ("Pasadena", "Los Angeles County"),
   ("Glendale", "Los Angeles County"),
   ("Burbank", "Los Angeles County"),
   ("Long Beach", "Los Angeles County"),
   ("Torrance", "Los Angeles County"),
   ("Manhattan Beach", "Los Angeles County"),
   ("Redondo Beach", "Los Angeles County"),
   ("West Hollywood", "Los Angeles County"),
   ("Culver City", "Los Angeles County"),
   ("Inglewood", "Los Angeles County"),
   ("Compton", "Los Angeles County"),
   ("Carson", "Los Angeles County"),
   ("Anaheim", "Orange County"),
   ("Santa Ana", "Orange County"),
   ("Irvine", "Orange County"),
   ("Huntington Beach", "Orange County"),
   ("Newport Beach", "Orange County"),
   ("Costa Mesa", "Orange County"),
   ("Fullerton", "Orange County"),
   ("Orange", "Orange County"),
   ("Garden Grove", "Orange County"),
   ("Tustin", "Orange County"),
   ("Laguna Beach", "Orange County"),
   ("Mission Viejo", "Orange County"),
   ("Aliso Viejo", "Orange County"),
   ("Laguna Niguel", "Orange County"),
   ("Lake Forest", "Orange County"),
   ("Yorba Linda", "Orange County"),
   ("Brea", "Orange County"),
   ("Placentia", "Orange County"),
   ("La Habra", "Orange County"),
   ("Buena Park", "Orange County")]

/-- Model of `COUNTY_MAPPING.get(area.name)` (line 995). -/
def county_of (name : String) : Option String := county_mapping.lookup name

/-- County check of `_passes_filters` (lines 993-997): active only for a
non-empty county list (Python truthiness); an unmapped area fails it. -/
def county_violation (area : Area) (f : AdvancedFilters) : Bool :=
  match f.counties with
  | some (c :: cs) =>
    (match county_of area.name with
     | none => true
     | some ac => decide (ac ∉ c :: cs))
  | _ => false

/-- Population density lower bound check (lines 1000-1002). -/
def pd_min_violation (metric : AreaMetric) (f : AdvancedFilters) : Bool :=
  match f.population_density_min with
  | some x => decide (metric.population_density < x)
  | none => false

/-- Population density upper bound check (lines 1004-1006). -/
def pd_max_violation (metric : AreaMetric) (f : AdvancedFilters) : Bool :=
  match f.population_density_max with
  | some x => decide (x < metric.population_density)
  | none => false

/-- Business density lower bound check (lines 1009-1011). -/
def bd_min_violation (metric : AreaMetric) (f : AdvancedFilters) : Bool :=
  match f.business_density_min with
  | some x => decide (metric.business_density < x)
  | none => false

/-- Business density upper bound check (lines 1013-1015). -/
def bd_max_violation (metric : AreaMetric) (f : AdvancedFilters) : Bool :=
  match f.business_density_max with
  | some x => decide (x < metric.business_density)
  | none => false

/-- Transport score lower bound check (lines 1018-1020). -/
def ts_min_violation (metric : AreaMetric) (f : AdvancedFilters) : Bool :=
  match f.transport_score_min with
  | some x => decide (metric.transport_score < x)
  | none => false

/-- Transport score upper bound check (lines 1022-1024). -/
def ts_max_violation (metric : AreaMetric) (f : AdvancedFilters) : Bool :=
  match f.transport_score_max with
  | some x => decide (x < metric.transport_score)
  | none => false

/-- Apartment count lower bound check (lines 1028-1030): only enforced
when `apartment_count` is present. -/
def ac_min_violation (metric : AreaMetric) (f : AdvancedFilters) : Bool :=
  match f.apartment_count_min, metric.apartment_count with
  | some x, some v => decide (v < x)
  | _, _ => false

/-- Apartment count upper bound check (lines 1032-1034): only enforced
when `apartment_count` is present. -/
def ac_max_violation (metric : AreaMetric) (f : AdvancedFilters) : Bool :=
  match f.apartment_count_max, metric.apartment_count with
  | some x, some v => decide (x < v)
  | _, _ => false

/-- Map bounds check (lines 1036-1043); absent sides default to the
planet-wide bounds. -/
noncomputable def bounds_violation (area : Area) (f : AdvancedFilters) : Bool :=
  match f.map_bounds with
  | some b =>
      decide (area.latitude < b.south.getD (-90))
        || decide (b.north.getD 90 < area.latitude)
        || decide (area.longitude < b.west.getD (-180))
        || decide (b.east.getD 180 < area.longitude)
  | none => false

/-- Embedding of `_passes_filters` (main.py, lines 989-1045): the checks
run in source order and any violation returns false immediately. -/
noncomputable def passes_filters (area : Area) (metric : AreaMetric) (f : AdvancedFilters) : Bool :=
  if county_violation area f then false
  else if pd_min_violation metric f then false
  else if pd_max_violation metric f then false
  else if bd_min_violation metric f then false
  else if bd_max_violation metric f then false
  else if ts_min_violation metric f then false
  else if ts_max_violation metric f then false
  else if ac_min_violation metric f then false
  else if ac_max_violation metric f then false
  else if bounds_violation area f then false
  else true

/-! Positive predicates, following the words of specification
section 4.5. -/

/-- County membership predicate of the specification: with a non-empty
county list, the area must map to one of the listed counties. -/
def county_ok (area : Area) (f : AdvancedFilters) : Bool :=
  match f.counties with
  | some (c :: cs) =>
    (match county_of area.name with
     | none => false
     | some ac => decide (ac ∈ c :: cs))
  | _ => true

/-- Lower half of an inclusive range predicate on an optional bound. -/
def ge_min (v : ℚ) (lo : Option ℚ) : Bool :=
  match lo with
  | some m => decide (m ≤ v)
  | none => true

/-- Upper half of an inclusive range predicate on an optional bound. -/
def le_max (v : ℚ) (hi : Option ℚ) : Bool :=
  match hi with
  | some m => decide (v ≤ m)
  | none => true

/-- Inclusive range predicate with optional bounds. -/
def range_ok (v : ℚ) (lo hi : Option ℚ) : Bool := ge_min v lo && le_max v hi

/-- Lower half of the apartment count predicate: vacuously true when the
count is absent. -/
def ac_ge_min (ac : Option ℤ) (lo : Option ℤ) : Bool :=
  match lo, ac with
  | some m, some v => decide (m ≤ v)
  | _, _ => true

/-- Upper half of the apartment count predicate: vacuously true when the
count is absent. -/
def ac_le_max (ac : Option ℤ) (hi : Option ℤ) : Bool :=
  match hi, ac with
  | some m, some v => decide (v ≤ m)
  | _, _ => true

/-- Apartment count range predicate of the specification: only enforced
when the count is present; an absent count passes any bounds. -/
def apartment_ok (ac : Option ℤ) (lo hi : Option ℤ) : Bool :=
  match ac with
  | none => true
  | some v =>
    (match lo with | some m => decide (m ≤ v) | none => true)
      && (match hi with | some m => decide (v ≤ m) | none => true)

/-- Geographic bounding box predicate of the specification. -/
noncomputable def bounds_ok (area : Area) (mb : Option MapBounds) : Bool :=
  match mb with
  | none => true
  | some b =>
      decide (b.south.getD (-90) ≤ area.latitude)
        && decide (area.latitude ≤ b.north.getD 90)
        && decide (b.west.getD (-180) ≤ area.longitude)
        && decide (area.longitude ≤ b.east.getD 180)

/-! Serialization of the apartment count in the output records. -/

/-- Embedding of the output serialization
`int(metric.apartment_count) if metric.apartment_count else None` in
`search_locations` (main.py, line 715): a Python truthiness test, so a
count of exactly 0 is serialized as None. -/
def search_rec_apartment_count (metric : AreaMetric) : Option ℤ :=
  match metric.apartment_count with
  | none => none
  | some v => if v = 0 then none else some v

/-- The same serialization expression in `ai_search_locations`
(main.py, line 790). -/
def ai_rec_apartment_count (metric : AreaMetric) : Option ℤ :=
  match metric.apartment_count with
  | none => none
  | some v => if v = 0 then none else some v

/-! Distance engine: `calculate_distance_km` (main.py, lines 89-97) and the
unit conversions (lines 99-105). Trigonometry is modelled over the real
numbers. -/

/-- Model of `math.radians`. -/
noncomputable def radians (x : ℝ) : ℝ := x * (Real.pi / 180)

/-- Model of `math.atan2` on the reals (the signed-zero corner of IEEE
atan2 has no analogue in `ℝ`; only the branches with a non-negative second
argument are exercised by the haversine formula). -/
noncomputable def atan2 (y x : ℝ) : ℝ :=
  if 0 < x then Real.arctan (y / x)
  else if x < 0 then
    (if 0 ≤ y then Real.arctan (y / x) + Real.pi else Real.arctan (y / x) - Real.pi)
  else
    (if 0 < y then Real.pi / 2 else if y < 0 then -(Real.pi / 2) else 0)

/-- Intermediate value `a` of the haversine formula (line 95). -/
noncomputable def haversine_a (lat1 lon1 lat2 lon2 : ℝ) : ℝ :=
  Real.sin (radians (lat2 - lat1) / 2) ^ 2
    + Real.cos (radians lat1) * Real.cos (radians lat2)
      * Real.sin (radians (lon2 - lon1) / 2) ^ 2

/-- Embedding of `calculate_distance_km` (main.py, lines 89-97): haversine
great-circle distance with Earth radius 6371 km. -/
noncomputable def calculate_distance_km (lat1 lon1 lat2 lon2 : ℝ) : ℝ :=
  6371 * (2 * atan2 (Real.sqrt (haversine_a lat1 lon1 lat2 lon2))
    (Real.sqrt (1 - haversine_a lat1 lon1 lat2 lon2)))

/-- Embedding of `miles_to_km` (lines 99-101). -/
noncomputable def miles_to_km (miles : ℝ) : ℝ := miles * 1.60934

/-- Embedding of `km_to_miles` (lines 103-105). -/
noncomputable def km_to_miles (km : ℝ) : ℝ := km * 0.621371

/-! Radius filter: `is_within_radius_range` (main.py, lines 150-195). -/

/-- Olympic venue row of the static JSON table; coordinates are read with
`venue.get`, hence optional. -/
structure Venue where
  latitude : Option ℝ
  longitude : Option ℝ

/-- Model of the coordinate truthiness guard
`if not venue.get('Latitude') or not venue.get('Longitude'): continue`
(line 167): a missing or zero coordinate skips the venue. -/
noncomputable def venue_coords (v : Venue) : Option (ℝ × ℝ) :=
  match v.latitude, v.longitude with
  | some la, some lo => if la = 0 ∨ lo = 0 then none else some (la, lo)
  | _, _ => none

/-- Loop of lines 165-171: distance to the single nearest venue with
usable coordinates, or none if no venue qualifies. -/
noncomputable def nearest_venue_distance_km (lat lon : ℝ) (venues : List Venue) :
    Option ℝ :=
  venues.foldl (fun acc v =>
    match venue_coords v with
    | none => acc
    | some (vla, vlo) =>
      let d := calculate_distance_km lat lon vla vlo
      match acc with
      | none => some d
      | some best => if d < best then some d else acc) none

/-- Embedding of `is_within_radius_range` (main.py, lines 150-195). -/
noncomputable def is_within_radius_range (lat lon : ℝ) (rmin rmax : Option ℝ)
    (venues : List Venue) : Bool :=
  match venues with
  | [] => true
  | v :: vs =>
    match rmin, rmax with
    | none, none => true
    | _, _ =>
      match nearest_venue_distance_km lat lon (v :: vs) with
      | none => true
      | some d =>
        match rmin, rmax with
        | some mn, some mx => decide (miles_to_km mn ≤ d ∧ d ≤ miles_to_km mx)
        | none, some mx => decide (d ≤ miles_to_km mx)
        | some mn, none => decide (miles_to_km mn ≤ d)
        | none, none => false

/-! Proximity join: `find_nearest_city_metrics` (main.py, lines 107-148)
and the metric fallbacks of the search endpoints. -/

/-- Area row as stored (name, city, raw coordinates); a coordinate value
that fails `float()` parsing is modelled as `none`. -/
structure RawArea where
  name : String
  city : String
  latitude : Option ℝ
  longitude : Option ℝ

/-- One row of the outer-joined query `(Area, AreaMetric)`
(lines 113-117): the metric may be absent. -/
def AreaRow : Type := RawArea × Option AreaMetric

/-- Model of `float(area.latitude)` and `float(area.longitude)` under
`try ... except (ValueError, TypeError): continue` (lines 126-137): a row
is usable only when both coordinates parse. -/
def parse_coords (a : RawArea) : Option (ℝ × ℝ) :=
  match a.latitude, a.longitude with
  | some la, some lo => some (la, lo)
  | _, _ => none

/-- Min-update of the scan loop (lines 132-135): a strictly smaller
distance replaces the incumbent; ties keep the first-seen element. -/
noncomputable def scan_step {β : Type} (acc : Option (β × ℝ)) (p : β × ℝ) :
    Option (β × ℝ) :=
  match acc with
  | none => some p
  | some q => if p.2 < q.2 then some p else acc

/-- Rows with parseable coordinates, paired with their distance to the
query point. -/
noncomputable def scan_pairs (lat lon : ℝ) (rows : List AreaRow) : List (AreaRow × ℝ) :=
  rows.filterMap (fun row =>
    match parse_coords row.1 with
    | some c => some (row, calculate_distance_km lat lon c.1 c.2)
    | none => none)

/-- Embedding of the scan loop of `find_nearest_city_metrics`
(lines 122-137). -/
noncomputable def find_nearest_scan (lat lon : ℝ) (rows : List AreaRow) :
    Option (AreaRow × ℝ) :=
  rows.foldl (fun acc row =>
    match parse_coords row.1 with
    | none => acc
    | some c => scan_step acc (row, calculate_distance_km lat lon c.1 c.2)) none

/-- The nearest-area selection as worded in specification section 4.3:
linear scan in which the minimum distance wins, ties resolve to the
first-seen row in input iteration order, and rows whose coordinates fail
to parse are skipped. -/
noncomputable def nearest_area_spec (lat lon : ℝ) (rows : List AreaRow) :
    Option (AreaRow × ℝ) :=
  (scan_pairs lat lon rows).find?
    (fun p => (scan_pairs lat lon rows).all (fun q => decide (p.2 ≤ q.2)))

/-- Default metric record named by the invariant of specification
section 3. -/
def spec_default_metric : AreaMetric := ⟨5000, 50, 7, none⟩

/-- Embedding of `find_nearest_city_metrics` (main.py, lines 107-148):
nearest-row scan, then substitution of the default metric record
(lines 139-147) when the nearest area has no metric row. -/
noncomputable def find_nearest_city_metrics (lat lon : ℝ) (rows : List AreaRow) :
    Option RawArea × Option AreaMetric :=
  match find_nearest_scan lat lon rows with
  | none => (none, none)
  | some ((a, m), _) => (some a, some (m.getD ⟨5000, 50, 7, none⟩))

/-- Metric fallback of `search_locations` (main.py, lines 668-677): when
no nearest area or metric is found, a default record with transport
score 7.0 is used. -/
noncomputable def search_locations_metric (lat lon : ℝ) (rows : List AreaRow) :
    AreaMetric :=
  match find_nearest_city_metrics lat lon rows with
  | (some _, some m) => m
  | _ => ⟨5000, 50, 7, none⟩

/-- Metric fallback of `ai_search_locations` (main.py, lines 761-768): a
missing metric row is replaced by a default record with transport
score 7.5. -/
def ai_search_metric (m : Option AreaMetric) : AreaMetric :=
  m.getD ⟨5000, 50, 7.5, none⟩

/-- First row of the concrete equidistant pair used for the tie-break
conjunct of C8: one degree east of the origin. -/
def tie_row_east : AreaRow := (⟨"East Area", "East City", some 0, some 1⟩, none)

/-- Second row of the concrete equidistant pair: one degree west of the
origin, at the same distance from it as `tie_row_east`. -/
def tie_row_west : AreaRow := (⟨"West Area", "West City", some 0, some (-1)⟩, none)

/-! Helper lemmas about one-decimal rounding. -/

theorem round1_nonneg {x : ℚ} (hx : 0 ≤ x) : 0 ≤ round1 x := by
  unfold round1
  have h0 : (0 : ℤ) ≤ round (10 * x) := by
    rw [round_eq]
    exact Int.floor_nonneg.mpr (by linarith)
  have h1 : (0 : ℚ) ≤ ((round (10 * x) : ℤ) : ℚ) := by exact_mod_cast h0
  linarith

theorem round1_le_ten {x : ℚ} (hx : x ≤ 10) : round1 x ≤ 10 := by
  unfold round1
  have h0 : round (10 * x) < 101 := by
    rw [round_eq]
    have h : (10 * x + 1 / 2 : ℚ) < ((101 : ℤ) : ℚ) := by push_cast; linarith
    exact Int.floor_lt.mpr h
  have h1 : ((round (10 * x) : ℤ) : ℚ) ≤ 100 := by exact_mod_cast Int.lt_add_one_iff.mp h0
  linarith

/-- C2: for every metric record, the base score equals
`round1(0.6 * clamp(population_density / 1500, 0, 10) +
0.4 * clamp(transport_score, 0, 10))`, and the result lies in [0, 10]
for arbitrary (also out-of-range) inputs. -/
theorem claim2_baseScore_formula_and_range (m : AreaMetric) :
    score_from_metrics m
        = round1 (0.6 * clamp (m.population_density / 1500) 0 10
            + 0.4 * clamp m.transport_score 0 10)
      ∧ 0 ≤ score_from_metrics m ∧ score_from_metrics m ≤ 10 := by
  have hp0 : (0 : ℚ) ≤ max 0 (min 10 (m.population_density / 1500)) := le_max_left _ _
  have ht0 : (0 : ℚ) ≤ max 0 (min 10 m.transport_score) := le_max_left _ _
  have hp10 : max 0 (min 10 (m.population_density / 1500)) ≤ 10 :=
    max_le (by norm_num) (min_le_left _ _)
  have ht10 : max 0 (min 10 m.transport_score) ≤ 10 :=
    max_le (by norm_num) (min_le_left _ _)
  refine ⟨rfl, ?_, ?_⟩
  · simp only [score_from_metrics]
    exact round1_nonneg (by linarith)
  · simp only [score_from_metrics]
    exact round1_le_ten (by linarith)

/-- Helper: none of the seven category term lists matches any of the six
literal pass-through queries. -/
theorem general_query_no_category (query : String) (hq : query ∈ general_queries) :
    anyTermIn beach_query_terms query.toList = false
  ∧ anyTermIn urban_query_terms query.toList = false
  ∧ anyTermIn hill_query_terms query.toList = false
  ∧ anyTermIn density_query_terms query.toList = false
  ∧ anyTermIn transit_query_terms query.toList = false
  ∧ anyTermIn best_query_terms query.toList = false
  ∧ anyTermIn business_query_terms query.toList = false := by
  simp only [general_queries, List.mem_cons, List.not_mem_nil, or_false] at hq
  rcases hq with rfl | rfl | rfl | rfl | rfl | rfl <;> exact (by decide)

/-- C7 (amended): a query that is exactly one of the literal pass-through
strings returns the base score unmodified, provided the business type is
not restaurant-like, the query is not a substring of the candidate name or
city name, and the base score is a one-decimal value in [0, 10] (as every
output of the base scorer is). -/
theorem claim7_passthrough_amended (query area_name city_name : String)
    (business_type : Option String) (base_score : ℚ) (metric : AreaMetric)
    (hq : query ∈ general_queries)
    (hname : substrIn query (lowerStr area_name) = false)
    (hcity : substrIn query (lowerStr city_name) = false)
    (hbt : is_restaurant_type business_type = false)
    (h0 : 0 ≤ base_score) (h10 : base_score ≤ 10)
    (hr : round1 base_score = base_score) :
    calculate_search_score query area_name city_name business_type base_score metric
      = base_score := by
  obtain ⟨hb, hu, hh, hd, ht, hbe, hbz⟩ := general_query_no_category query hq
  simp only [calculate_search_score, hname, hcity, hbt, hb, hu, hh, hd, ht, hbe, hbz,
    Bool.or_self, Bool.false_eq_true, if_false, if_pos hq]
  unfold normalize_score
  rcases h0.lt_or_eq with hpos | hzero
  · rw [if_pos hpos, max_eq_right h0, min_eq_right h10, hr]
  · rw [← hzero] at hr ⊢
    rw [if_neg (lt_irrefl 0), hr]

/-- C7 (counterexample to the claim as stated): for the empty pass-through
query, the direct substring rule fires first (the empty string is a
substring of every name), so the result is 1.5 times the base score, not
the base score. -/
theorem claim7_counterexample :
    ("" ∈ general_queries)
    ∧ calculate_search_score "" "Downtown LA" "Downtown LA" (some "unknown_type") 2
        ⟨5000, 50, 7, none⟩ ≠ 2 := by
  constructor
  · exact (by decide)
  · have h1 : substrIn "" (lowerStr "Downtown LA") = true := by decide
    simp only [calculate_search_score, h1, Bool.true_or, if_true]
    norm_num [normalize_score, round1, round_eq, min_def, max_def]

/-- C7 witness: a concrete pass-through query on a candidate where no
earlier rule fires returns the base score unchanged. -/
theorem claim7_witness :
    ("all" ∈ general_queries)
    ∧ substrIn "all" (lowerStr "Downtown LA") = false
    ∧ is_restaurant_type (some "unknown_type") = false
    ∧ (0 : ℚ) ≤ 5 ∧ (5 : ℚ) ≤ 10 ∧ round1 5 = 5
    ∧ calculate_search_score "all" "Downtown LA" "Downtown LA" (some "unknown_type") 5
        ⟨5000, 50, 7, none⟩ = 5 := by
  have hr : round1 (5 : ℚ) = 5 := by norm_num [round1, round_eq]
  refine ⟨by decide, by decide, by decide, by norm_num, by norm_num, hr, ?_⟩
  exact claim7_passthrough_amended "all" "Downtown LA" "Downtown LA" (some "unknown_type")
    5 ⟨5000, 50, 7, none⟩ (by decide) (by decide) (by decide) (by decide)
    (by norm_num) (by norm_num) hr

/-- C1 (amended): for a candidate whose business type is not
restaurant-like, a query containing both a beach term and a transit term,
where the candidate name has no beach term, is scored by the beach branch
with multiplier 0.3 rather than the transit branch — provided the query is
not a substring of the candidate name or city name (the direct-match rule
precedes the beach rule). -/
theorem claim1_beach_precedence_amended (query area_name city_name : String)
    (business_type : Option String) (base_score : ℚ) (metric : AreaMetric)
    (hname : substrIn query (lowerStr area_name) = false)
    (hcity : substrIn query (lowerStr city_name) = false)
    (hbt : is_restaurant_type business_type = false)
    (hbeach : anyTermIn beach_query_terms query.toList = true)
    (htransit : anyTermIn transit_query_terms query.toList = true)
    (hnb : anyTermIn beach_name_terms (lowerStr area_name) = false) :
    calculate_search_score query area_name city_name business_type base_score metric
      = normalize_score (base_score * 0.3) := by
  simp only [calculate_search_score, hname, hcity, hbt, hbeach, hnb, Bool.or_self,
    Bool.false_eq_true, if_false, if_true]

/-- C1 (counterexample to the claim as stated): a query with both a beach
term and a transit term that is itself a substring of the candidate name
(which still contains none of the beach name terms beach, coast, marina)
is captured by the direct-match rule with multiplier 1.5, not by the beach
branch with multiplier 0.3. -/
theorem claim1_counterexample :
    (is_restaurant_type (some "unknown_type") = false
      ∧ anyTermIn beach_query_terms "waterfront transit".toList = true
      ∧ anyTermIn transit_query_terms "waterfront transit".toList = true
      ∧ anyTermIn beach_name_terms (lowerStr "Waterfront Transit Plaza") = false)
    ∧ calculate_search_score "waterfront transit" "Waterfront Transit Plaza" "Anytown"
        (some "unknown_type") 5 ⟨5000, 50, 7, none⟩
        ≠ normalize_score (5 * 0.3) := by
  constructor
  · exact (by decide)
  · have h1 : substrIn "waterfront transit" (lowerStr "Waterfront Transit Plaza") = true := by
      decide
    simp only [calculate_search_score, h1, Bool.true_or, if_true]
    norm_num [normalize_score, round1, round_eq, min_def, max_def]

/-- C1 witness: the concrete example of the claim — query beach transit on
Downtown LA with a non-restaurant business type resolves through the beach
branch with multiplier 0.3. -/
theorem claim1_witness :
    (substrIn "beach transit" (lowerStr "Downtown LA") = false
      ∧ is_restaurant_type (some "unknown_type") = false
      ∧ anyTermIn beach_query_terms "beach transit".toList = true
      ∧ anyTermIn transit_query_terms "beach transit".toList = true
      ∧ anyTermIn beach_name_terms (lowerStr "Downtown LA") = false)
    ∧ calculate_search_score "beach transit" "Downtown LA" "Downtown LA"
        (some "unknown_type") 5 ⟨5000, 50, 7, none⟩ = normalize_score (5 * 0.3) := by
  refine ⟨by decide, ?_⟩
  exact claim1_beach_precedence_amended "beach transit" "Downtown LA" "Downtown LA"
    (some "unknown_type") 5 ⟨5000, 50, 7, none⟩ (by decide) (by decide) (by decide)
    (by decide) (by decide) (by decide)

/-- C3: a query matching no category rule and not in the literal
pass-through set scores exactly 0, and any zero-scored candidate is
excluded from the result list built by the search endpoint. -/
theorem claim3_no_match_zero_and_excluded (query area_name city_name : String)
    (business_type : Option String) (base_score : ℚ) (metric : AreaMetric)
    (hname : substrIn query (lowerStr area_name) = false)
    (hcity : substrIn query (lowerStr city_name) = false)
    (hbt : is_restaurant_type business_type = false)
    (hb : anyTermIn beach_query_terms query.toList = false)
    (hu : anyTermIn urban_query_terms query.toList = false)
    (hh : anyTermIn hill_query_terms query.toList = false)
    (hd : anyTermIn density_query_terms query.toList = false)
    (ht : anyTermIn transit_query_terms query.toList = false)
    (hbe : anyTermIn best_query_terms query.toList = false)
    (hbz : anyTermIn business_query_terms query.toList = false)
    (hq : query ∉ general_queries) :
    calculate_search_score query area_name city_name business_type base_score metric = 0
    ∧ ∀ {α : Type} (score : α → ℚ) (cands : List α) (c : α),
        score c = 0 → c ∉ search_results score cands := by
  constructor
  · simp only [calculate_search_score, hname, hcity, hbt, hb, hu, hh, hd, ht, hbe, hbz,
      Bool.or_self, Bool.false_eq_true, if_false, if_neg hq]
    norm_num [normalize_score, round1, round_eq]
  · intro α score cands c hc
    simp [search_results, List.mem_filter, hc]

/-- C3 witness: the concrete no-match query of the claim scores 0 and the
zero-scored candidate is excluded from the result list. -/
theorem claim3_witness :
    calculate_search_score "xyzxyz123" "Kia Forum" "Inglewood" (some "unknown_type") 5
        ⟨5000, 50, 7, none⟩ = 0
    ∧ () ∉ search_results
        (fun _ : Unit => calculate_search_score "xyzxyz123" "Kia Forum" "Inglewood"
          (some "unknown_type") 5 ⟨5000, 50, 7, none⟩) [()] := by
  have H := claim3_no_match_zero_and_excluded "xyzxyz123" "Kia Forum" "Inglewood"
    (some "unknown_type") 5 ⟨5000, 50, 7, none⟩ (by decide) (by decide) (by decide)
    (by decide) (by decide) (by decide) (by decide) (by decide) (by decide) (by decide)
    (by decide)
  exact ⟨H.1, H.2 _ [()] () H.1⟩

theorem county_violation_eq (area : Area) (f : AdvancedFilters) :
    county_violation area f = !county_ok area f := by
  unfold county_violation county_ok
  rcases f.counties with _ | ⟨_ | ⟨c, cs⟩⟩
  · rfl
  · rfl
  · rcases county_of area.name with _ | ac
    · rfl
    · simp [decide_not]

theorem pd_min_violation_eq (metric : AreaMetric) (f : AdvancedFilters) :
    pd_min_violation metric f = !ge_min metric.population_density f.population_density_min := by
  unfold pd_min_violation ge_min
  rcases f.population_density_min with _ | x
  · rfl
  · simp [← decide_not, not_le]

theorem pd_max_violation_eq (metric : AreaMetric) (f : AdvancedFilters) :
    pd_max_violation metric f = !le_max metric.population_density f.population_density_max := by
  unfold pd_max_violation le_max
  rcases f.population_density_max with _ | x
  · rfl
  · simp [← decide_not, not_le]

theorem bd_min_violation_eq (metric : AreaMetric) (f : AdvancedFilters) :
    bd_min_violation metric f = !ge_min metric.business_density f.business_density_min := by
  unfold bd_min_violation ge_min
  rcases f.business_density_min with _ | x
  · rfl
  · simp [← decide_not, not_le]

theorem bd_max_violation_eq (metric : AreaMetric) (f : AdvancedFilters) :
    bd_max_violation metric f = !le_max metric.business_density f.business_density_max := by
  unfold bd_max_violation le_max
  rcases f.business_density_max with _ | x
  · rfl
  · simp [← decide_not, not_le]

theorem ts_min_violation_eq (metric : AreaMetric) (f : AdvancedFilters) :
    ts_min_violation metric f = !ge_min metric.transport_score f.transport_score_min := by
  unfold ts_min_violation ge_min
  rcases f.transport_score_min with _ | x
  · rfl
  · simp [← decide_not, not_le]

theorem ts_max_violation_eq (metric : AreaMetric) (f : AdvancedFilters) :
    ts_max_violation metric f = !le_max metric.transport_score f.transport_score_max := by
  unfold ts_max_violation le_max
  rcases f.transport_score_max with _ | x
  · rfl
  · simp [← decide_not, not_le]

theorem ac_min_violation_eq (metric : AreaMetric) (f : AdvancedFilters) :
    ac_min_violation metric f = !ac_ge_min metric.apartment_count f.apartment_count_min := by
  unfold ac_min_violation ac_ge_min
  rcases f.apartment_count_min with _ | x <;> rcases metric.apartment_count with _ | v
  · rfl
  · rfl
  · rfl
  · simp [← decide_not, not_le]

theorem ac_max_violation_eq (metric : AreaMetric) (f : AdvancedFilters) :
    ac_max_violation metric f = !ac_le_max metric.apartment_count f.apartment_count_max := by
  unfold ac_max_violation ac_le_max
  rcases f.apartment_count_max with _ | x <;> rcases metric.apartment_count with _ | v
  · rfl
  · rfl
  · rfl
  · simp [← decide_not, not_le]

theorem bounds_violation_eq (area : Area) (f : AdvancedFilters) :
    bounds_violation area f = !bounds_ok area f.map_bounds := by
  unfold bounds_violation bounds_ok
  rcases f.map_bounds with _ | b
  · rfl
  · simp [← decide_not, not_le, not_or]

theorem ac_halves_eq (ac : Option ℤ) (lo hi : Option ℤ) :
    (ac_ge_min ac lo && ac_le_max ac hi) = apartment_ok ac lo hi := by
  unfold ac_ge_min ac_le_max apartment_ok
  rcases ac with _ | v <;> rcases lo with _ | x <;> rcases hi with _ | y <;> rfl

theorem bool_guard (b r : Bool) : (if !b then false else r) = (b && r) := by
  cases b <;> rfl

theorem filter_chain (h1 h2 h3 h4 h5 h6 h7 h8 h9 h10 : Bool) :
    (if !h1 then false else if !h2 then false else if !h3 then false
      else if !h4 then false else if !h5 then false else if !h6 then false
      else if !h7 then false else if !h8 then false else if !h9 then false
      else if !h10 then false else true)
    = (h1 && (h2 && h3) && (h4 && h5) && (h6 && h7) && (h8 && h9) && h10) := by
  simp only [bool_guard, Bool.and_assoc, Bool.and_true]

/-- C5: the filter engine is a pure conjunction of its predicates; the
apartment count range is only enforced when the count is present — an
absent count passes any bounds — and a record failing any one predicate
is excluded regardless of the others. -/
theorem claim5_filters_pure_conjunction (area : Area) (metric : AreaMetric)
    (f : AdvancedFilters) :
    (passes_filters area metric f
        = (county_ok area f
            && range_ok metric.population_density f.population_density_min
                f.population_density_max
            && range_ok metric.business_density f.business_density_min
                f.business_density_max
            && range_ok metric.transport_score f.transport_score_min f.transport_score_max
            && apartment_ok metric.apartment_count f.apartment_count_min
                f.apartment_count_max
            && bounds_ok area f.map_bounds))
    ∧ (∀ lo hi : Option ℤ, apartment_ok none lo hi = true)
    ∧ ((county_ok area f = false
        ∨ range_ok metric.population_density f.population_density_min
            f.population_density_max = false
        ∨ range_ok metric.business_density f.business_density_min
            f.business_density_max = false
        ∨ range_ok metric.transport_score f.transport_score_min
            f.transport_score_max = false
        ∨ apartment_ok metric.apartment_count f.apartment_count_min
            f.apartment_count_max = false
        ∨ bounds_ok area f.map_bounds = false)
      → passes_filters area metric f = false) := by
  have heq : passes_filters area metric f
      = (county_ok area f
          && range_ok metric.population_density f.population_density_min
              f.population_density_max
          && range_ok metric.business_density f.business_density_min
              f.business_density_max
          && range_ok metric.transport_score f.transport_score_min f.transport_score_max
          && apartment_ok metric.apartment_count f.apartment_count_min
              f.apartment_count_max
          && bounds_ok area f.map_bounds) := by
    rw [passes_filters, county_violation_eq, pd_min_violation_eq, pd_max_violation_eq,
      bd_min_violation_eq, bd_max_violation_eq, ts_min_violation_eq, ts_max_violation_eq,
      ac_min_violation_eq, ac_max_violation_eq, bounds_violation_eq, filter_chain,
      ac_halves_eq]
    rfl
  refine ⟨heq, fun lo hi => rfl, fun h => ?_⟩
  rw [heq]
  rcases h with h | h | h | h | h | h <;> simp [h]

/-- C5 witness: a record failing only the population density predicate is
excluded, and a record with an absent apartment count passes an
apartment_count_min bound of 10000. -/
theorem claim5_witness :
    apartment_ok none (some 10000) none = true
    ∧ range_ok 12000 none (some 3000) = false
    ∧ passes_filters ⟨"Downtown LA", "Los Angeles", 34.05, -118.25⟩
        ⟨12000, 50, 7, none⟩
        ⟨none, none, some 3000, none, none, none, none, some 10000, none, none, none,
          none⟩ = false := by
  have H := claim5_filters_pure_conjunction ⟨"Downtown LA", "Los Angeles", 34.05, -118.25⟩
    ⟨12000, 50, 7, none⟩
    ⟨none, none, some 3000, none, none, none, none, some 10000, none, none, none, none⟩
  have hr : range_ok 12000 none (some 3000) = false := by
    have hx : ¬ ((12000 : ℚ) ≤ 3000) := by norm_num
    simp [range_ok, ge_min, le_max, hx]
  exact ⟨H.2.1 (some 10000) none, hr, H.2.2 (Or.inr (Or.inl hr))⟩

/-- C10: in the output record of both search paths, a metric whose
apartment count is exactly 0 is reported as an absent value,
indistinguishable from a missing count, because the serialization uses a
truthiness test. -/
theorem claim10_zero_apartment_count_serialized_null (m : AreaMetric)
    (h : m.apartment_count = some 0) :
    search_rec_apartment_count m = none
    ∧ ai_rec_apartment_count m = none
    ∧ search_rec_apartment_count m
        = search_rec_apartment_count ⟨m.population_density, m.business_density,
            m.transport_score, none⟩
    ∧ ai_rec_apartment_count m
        = ai_rec_apartment_count ⟨m.population_density, m.business_density,
            m.transport_score, none⟩ := by
  simp [search_rec_apartment_count, ai_rec_apartment_count, h]

/-- C10 witness: a concrete metric with apartment count 0 serializes to an
absent count on both search paths. -/
theorem claim10_witness :
    (⟨5000, 50, 7, some 0⟩ : AreaMetric).apartment_count = some 0
    ∧ search_rec_apartment_count ⟨5000, 50, 7, some 0⟩ = none
    ∧ ai_rec_apartment_count ⟨5000, 50, 7, some 0⟩ = none := by
  have H := claim10_zero_apartment_count_serialized_null ⟨5000, 50, 7, some 0⟩ rfl
  exact ⟨rfl, H.1, H.2.1⟩

theorem sin_sq_neg_swap (x y k : ℝ) :
    Real.sin ((x - y) * k / 2) ^ 2 = Real.sin ((y - x) * k / 2) ^ 2 := by
  have h : (x - y) * k / 2 = -((y - x) * k / 2) := by ring
  rw [h, Real.sin_neg]
  ring

theorem haversine_a_symm (lat1 lon1 lat2 lon2 : ℝ) :
    haversine_a lat1 lon1 lat2 lon2 = haversine_a lat2 lon2 lat1 lon1 := by
  unfold haversine_a radians
  rw [sin_sq_neg_swap lat2 lat1, sin_sq_neg_swap lon2 lon1,
    mul_comm (Real.cos (lat1 * (Real.pi / 180))) (Real.cos (lat2 * (Real.pi / 180)))]

theorem atan2_nonneg {y x : ℝ} (hy : 0 ≤ y) (hx : 0 ≤ x) : 0 ≤ atan2 y x := by
  unfold atan2
  by_cases h1 : 0 < x
  · rw [if_pos h1]
    have h := Real.arctan_strictMono.monotone (div_nonneg hy h1.le)
    simpa [Real.arctan_zero] using h
  · rw [if_neg h1]
    have hx0 : x = 0 := le_antisymm (not_lt.mp h1) hx
    rw [if_neg (by rw [hx0]; exact lt_irrefl 0)]
    by_cases h3 : 0 < y
    · rw [if_pos h3]
      have := Real.pi_pos
      linarith
    · rw [if_neg h3, if_neg (not_lt.mpr hy)]

/-- Helper shared by the radius filter witness: the distance from a point
to itself is exactly zero. -/
theorem calculate_distance_km_self (lat lon : ℝ) :
    calculate_distance_km lat lon lat lon = 0 := by
  have ha : haversine_a lat lon lat lon = 0 := by
    unfold haversine_a radians
    simp [sub_self]
  unfold calculate_distance_km
  rw [ha]
  norm_num [atan2, Real.sqrt_zero, Real.sqrt_one, Real.arctan_zero]

/-- C9: the haversine distance is symmetric in its two coordinate pairs,
non-negative for all inputs, and exactly zero for identical coordinates. -/
theorem claim9_distance_symm_nonneg_zero_self (lat1 lon1 lat2 lon2 : ℝ) :
    calculate_distance_km lat1 lon1 lat2 lon2 = calculate_distance_km lat2 lon2 lat1 lon1
    ∧ 0 ≤ calculate_distance_km lat1 lon1 lat2 lon2
    ∧ calculate_distance_km lat1 lon1 lat1 lon1 = 0 := by
  refine ⟨?_, ?_, calculate_distance_km_self lat1 lon1⟩
  · unfold calculate_distance_km
    rw [haversine_a_symm]
  · unfold calculate_distance_km
    have h := atan2_nonneg (Real.sqrt_nonneg (haversine_a lat1 lon1 lat2 lon2))
      (Real.sqrt_nonneg (1 - haversine_a lat1 lon1 lat2 lon2))
    linarith

/-- C6: the radius filter returns true for an empty venue list and for
absent bounds; with both bounds it is an inclusive range test on the
distance to the single nearest venue (converted from miles to km), with
only a max bound a less-or-equal test, with only a min bound a
greater-or-equal test. -/
theorem claim6_radius_range_semantics (lat lon : ℝ) (rmin rmax : Option ℝ)
    (venues : List Venue) :
    (venues = [] → is_within_radius_range lat lon rmin rmax venues = true)
    ∧ (is_within_radius_range lat lon none none venues = true)
    ∧ (∀ d mn mx, nearest_venue_distance_km lat lon venues = some d →
        is_within_radius_range lat lon (some mn) (some mx) venues
          = decide (miles_to_km mn ≤ d ∧ d ≤ miles_to_km mx))
    ∧ (∀ d mx, nearest_venue_distance_km lat lon venues = some d →
        is_within_radius_range lat lon none (some mx) venues
          = decide (d ≤ miles_to_km mx))
    ∧ (∀ d mn, nearest_venue_distance_km lat lon venues = some d →
        is_within_radius_range lat lon (some mn) none venues
          = decide (miles_to_km mn ≤ d)) := by
  refine ⟨?_, ?_, ?_, ?_, ?_⟩
  · intro h
    subst h
    rfl
  · rcases venues with _ | ⟨v, vs⟩ <;> rfl
  · intro d mn mx h
    rcases venues with _ | ⟨v, vs⟩
    · simp [nearest_venue_distance_km] at h
    · simp only [is_within_radius_range]
      rw [h]
  · intro d mx h
    rcases venues with _ | ⟨v, vs⟩
    · simp [nearest_venue_distance_km] at h
    · simp only [is_within_radius_range]
      rw [h]
  · intro d mn h
    rcases venues with _ | ⟨v, vs⟩
    · simp [nearest_venue_distance_km] at h
    · simp only [is_within_radius_range]
      rw [h]

/-- C6 witness: concrete instances of every branch — an empty venue list,
absent bounds, and a venue at distance zero against the inclusive bounds
[0 miles, 5 miles], a max-only bound and a min-only bound. -/
theorem claim6_witness :
    is_within_radius_range 1 1 (some 0) (some 5) [] = true
    ∧ is_within_radius_range 1 1 none none [⟨some 1, some 1⟩] = true
    ∧ nearest_venue_distance_km 1 1 [⟨some 1, some 1⟩] = some 0
    ∧ is_within_radius_range 1 1 (some 0) (some 5) [⟨some 1, some 1⟩] = true
    ∧ is_within_radius_range 1 1 none (some 5) [⟨some 1, some 1⟩] = true
    ∧ is_within_radius_range 1 1 (some 0) none [⟨some 1, some 1⟩] = true := by
  have hv : venue_coords ⟨some 1, some 1⟩ = some (1, 1) := by norm_num [venue_coords]
  have hn : nearest_venue_distance_km 1 1 [⟨some 1, some 1⟩] = some 0 := by
    simp [nearest_venue_distance_km, hv, calculate_distance_km_self]
  obtain ⟨h1, h2, h3, h4, h5⟩ := claim6_radius_range_semantics 1 1 (some 0) (some 5)
    [⟨some 1, some 1⟩]
  refine ⟨(claim6_radius_range_semantics 1 1 (some 0) (some 5) []).1 rfl, h2, hn, ?_, ?_, ?_⟩
  · rw [h3 0 0 5 hn]
    have hb : miles_to_km 0 ≤ (0 : ℝ) ∧ (0 : ℝ) ≤ miles_to_km 5 := by
      norm_num [miles_to_km]
    simp [hb]
  · rw [h4 0 5 hn]
    have hb : (0 : ℝ) ≤ miles_to_km 5 := by norm_num [miles_to_km]
    simp [hb]
  · rw [h5 0 0 hn]
    have hb : miles_to_km 0 ≤ (0 : ℝ) := by norm_num [miles_to_km]
    simp [hb]

theorem scan_fold_some {β : Type} (l : List (β × ℝ)) (q : β × ℝ) :
    l.foldl scan_step (some q)
      = (match l.foldl scan_step none with
        | none => some q
        | some r => if r.2 < q.2 then some r else some q) := by
  induction l generalizing q with
  | nil => rfl
  | cons p t ih =>
    show t.foldl scan_step (scan_step (some q) p)
        = (match t.foldl scan_step (scan_step none p) with
          | none => some q
          | some r => if r.2 < q.2 then some r else some q)
    rw [show scan_step (none : Option (β × ℝ)) p = some p from rfl]
    by_cases hpq : p.2 < q.2
    · rw [show scan_step (some q) p = some p from by simp [scan_step, hpq]]
      rw [ih p]
      rcases ht : t.foldl scan_step none with _ | r
      · simp [hpq]
      · by_cases hrp : r.2 < p.2
        · have hrq : r.2 < q.2 := lt_trans hrp hpq
          simp [hrp, hrq]
        · simp [hrp, hpq]
    · rw [show scan_step (some q) p = some q from by simp [scan_step, hpq]]
      rw [ih q, ih p]
      rcases ht : t.foldl scan_step none with _ | r
      · simp [hpq]
      · by_cases hrp : r.2 < p.2
        · simp [hrp]
        · have hrq : ¬ r.2 < q.2 := by
            have h1 : q.2 ≤ p.2 := not_lt.mp hpq
            have h2 : p.2 ≤ r.2 := not_lt.mp hrp
            exact not_lt.mpr (le_trans h1 h2)
          simp [hrp, hpq, hrq]

theorem scan_fold_ne_none {β : Type} (l : List (β × ℝ)) (q : β × ℝ) :
    l.foldl scan_step (some q) ≠ none := by
  rw [scan_fold_some]
  rcases l.foldl scan_step none with _ | r
  · simp
  · by_cases h : r.2 < q.2 <;> simp [h]

theorem find?_stronger {α : Type} (l : List α) (pr q : α → Bool) (c : α)
    (himp : ∀ x, q x = true → pr x = true) (hfind : l.find? pr = some c)
    (hqc : q c = true) : l.find? q = some c := by
  induction l with
  | nil => simp at hfind
  | cons x t ih =>
    by_cases hq : q x = true
    · have hpx : pr x = true := himp x hq
      rw [List.find?_cons_of_pos _ hpx] at hfind
      rw [List.find?_cons_of_pos _ hq]
      exact hfind
    · rcases hpx : pr x with _ | _
      · rw [List.find?_cons_of_neg _ (by simp [hpx])] at hfind
        rw [List.find?_cons_of_neg _ hq]
        exact ih hfind
      · rw [List.find?_cons_of_pos _ hpx] at hfind
        have hcx : c = x := by
          have h := hfind
          injection h with h1
          exact h1.symm
        rw [hcx] at hqc
        exact absurd hqc hq

theorem scan_fold_eq_first_min {β : Type} (l : List (β × ℝ)) :
    l.foldl scan_step none
      = l.find? (fun p => l.all (fun q => decide (p.2 ≤ q.2))) := by
  induction l with
  | nil => rfl
  | cons p t ih =>
    show t.foldl scan_step (scan_step none p) = _
    rw [show scan_step (none : Option (β × ℝ)) p = some p from rfl, scan_fold_some, ih]
    rcases hf : t.find? (fun x => t.all (fun q => decide (x.2 ≤ q.2))) with _ | r
    · rcases t with _ | ⟨y, s⟩
      · simp
      · exfalso
        have h2 : (y :: s).foldl scan_step none = none := ih.trans hf
        have h3 : (y :: s).foldl scan_step none = s.foldl scan_step (some y) := rfl
        exact scan_fold_ne_none s y (h3 ▸ h2)
    · rw [hf]
      have hrt : r ∈ t := List.mem_of_find?_eq_some hf
      have hrall := List.find?_some hf
      have hrle : ∀ x ∈ t, r.2 ≤ x.2 := by
        intro x hx
        exact of_decide_eq_true ((List.all_eq_true.mp hrall) x hx)
      by_cases hrp : r.2 < p.2
      · have hpall : ¬ ((p :: t).all (fun q => decide (p.2 ≤ q.2)) = true) := by
          rw [List.all_eq_true]
          intro hall
          have := of_decide_eq_true (hall r (List.mem_cons_of_mem p hrt))
          exact absurd this (not_le.mpr hrp)
        rw [@List.find?_cons_of_neg (β × ℝ)
          (fun x => (p :: t).all (fun q => decide (x.2 ≤ q.2))) p t hpall]
        have hres := find?_stronger t
          (fun x => t.all (fun q => decide (x.2 ≤ q.2)))
          (fun x => (p :: t).all (fun q => decide (x.2 ≤ q.2))) r
          (fun x hx => by
            rw [List.all_eq_true] at hx ⊢
            intro y hy
            exact hx y (List.mem_cons_of_mem p hy))
          hf
          (by
            rw [List.all_eq_true]
            intro y hy
            rcases List.mem_cons.mp hy with h | h
            · subst h
              exact decide_eq_true hrp.le
            · exact decide_eq_true (hrle y h))
        rw [hres]
        simp [hrp]
      · have hpall : (p :: t).all (fun q => decide (p.2 ≤ q.2)) = true := by
          rw [List.all_eq_true]
          intro y hy
          rcases List.mem_cons.mp hy with h | h
          · subst h
            exact decide_eq_true le_rfl
          · exact decide_eq_true (le_trans (not_lt.mp hrp) (hrle y h))
        rw [@List.find?_cons_of_pos (β × ℝ)
          (fun x => (p :: t).all (fun q => decide (x.2 ≤ q.2))) p t hpall]
        simp [hrp]

theorem find_nearest_scan_eq_pairs (lat lon : ℝ) (rows : List AreaRow) :
    find_nearest_scan lat lon rows = (scan_pairs lat lon rows).foldl scan_step none := by
  suffices h : ∀ acc : Option (AreaRow × ℝ),
      rows.foldl (fun acc row =>
        match parse_coords row.1 with
        | none => acc
        | some c => scan_step acc (row, calculate_distance_km lat lon c.1 c.2)) acc
        = (scan_pairs lat lon rows).foldl scan_step acc by
    exact h none
  induction rows with
  | nil => intro acc; rfl
  | cons row t ih =>
    intro acc
    rw [List.foldl_cons]
    rcases hp : parse_coords row.1 with _ | c
    · simp only [hp, scan_pairs, List.filterMap_cons]
      exact ih acc
    · simp only [hp, scan_pairs, List.filterMap_cons, List.foldl_cons]
      exact ih _

/-- Helper shared by the tie-break conjunct: the two tie rows are
equidistant from the origin. -/
theorem tie_rows_equidistant :
    calculate_distance_km 0 0 0 (-1) = calculate_distance_km 0 0 0 1 := by
  unfold calculate_distance_km
  have ha : haversine_a 0 0 0 (-1) = haversine_a 0 0 0 1 := by
    unfold haversine_a radians
    have h1 : ((-1 : ℝ) - 0) * (Real.pi / 180) / 2
        = -((1 - 0) * (Real.pi / 180) / 2) := by ring
    rw [h1, Real.sin_neg]
    ring
  rw [ha]

/-- C8: the nearest-area scan equals the first-minimum selection of the
specification (linear scan, minimum distance wins, first-seen wins ties,
unparseable rows skipped); prepending a row with unparseable coordinates
never changes the result; and on a concrete equidistant pair the
first-listed area wins. -/
theorem claim8_nearest_scan_first_min (lat lon : ℝ) (rows : List AreaRow) :
    (find_nearest_scan lat lon rows = nearest_area_spec lat lon rows)
    ∧ (∀ bad : AreaRow, parse_coords bad.1 = none →
        find_nearest_scan lat lon (bad :: rows) = find_nearest_scan lat lon rows)
    ∧ (find_nearest_scan 0 0 [tie_row_east, tie_row_west]
        = some (tie_row_east, calculate_distance_km 0 0 0 1)) := by
  refine ⟨?_, ?_, ?_⟩
  · rw [find_nearest_scan_eq_pairs, nearest_area_spec, scan_fold_eq_first_min]
  · intro bad hbad
    unfold find_nearest_scan
    rw [List.foldl_cons, hbad]
  · have hd := tie_rows_equidistant
    simp only [find_nearest_scan, List.foldl, tie_row_east, tie_row_west, parse_coords,
      scan_step]
    rw [hd, if_neg (lt_irrefl _)]

/-- C8 witness: a concrete row whose coordinates fail to parse is skipped
without affecting the scan result. -/
theorem claim8_witness :
    parse_coords (⟨"Bad Area", "Bad City", none, none⟩ : RawArea) = none
    ∧ find_nearest_scan 0 0
        ((⟨"Bad Area", "Bad City", none, none⟩, none) :: [tie_row_east])
      = find_nearest_scan 0 0 [tie_row_east] := by
  refine ⟨rfl, ?_⟩
  exact (claim8_nearest_scan_first_min 0 0 [tie_row_east]).2.1
    (⟨"Bad Area", "Bad City", none, none⟩, none) rfl

/-- C4 (amended): a missing metric row is tolerated on every path by
substituting a defined default record — population density 5000, business
density 50, apartment count absent, transport score 7.0 on the venue
search paths but 7.5 on the AI search path — rather than failing. -/
theorem claim4_default_metric_amended (lat lon : ℝ) (rows : List AreaRow) :
    (∀ a m d, find_nearest_scan lat lon rows = some ((a, m), d) →
        find_nearest_city_metrics lat lon rows
          = (some a, some (m.getD spec_default_metric)))
    ∧ (∀ a d, find_nearest_scan lat lon rows = some ((a, none), d) →
        find_nearest_city_metrics lat lon rows = (some a, some spec_default_metric))
    ∧ (find_nearest_scan lat lon rows = none →
        search_locations_metric lat lon rows = spec_default_metric)
    ∧ ai_search_metric none = ⟨5000, 50, 7.5, none⟩
    ∧ (∀ m, ai_search_metric (some m) = m) := by
  refine ⟨?_, ?_, ?_, rfl, fun m => rfl⟩
  · intro a m d h
    unfold find_nearest_city_metrics
    rw [h]
    rfl
  · intro a d h
    unfold find_nearest_city_metrics
    rw [h]
    rfl
  · intro h
    unfold search_locations_metric find_nearest_city_metrics
    rw [h]
    rfl

/-- C4 (counterexample to the claim as stated): the AI search path does
not substitute the record with transport score 7.0 — its default record
carries transport score 7.5. -/
theorem claim4_counterexample :
    ai_search_metric none = ⟨5000, 50, 7.5, none⟩
    ∧ ai_search_metric none ≠ spec_default_metric := by
  refine ⟨rfl, ?_⟩
  intro h
  have h2 : (7.5 : ℚ) = 7 := congrArg AreaMetric.transport_score h
  norm_num at h2

/-- C4 witness: concrete missing-metric inputs on each path receive the
respective default records. -/
theorem claim4_witness :
    find_nearest_city_metrics 0 0 [tie_row_east]
        = (some tie_row_east.1, some spec_default_metric)
    ∧ search_locations_metric 0 0 [] = spec_default_metric
    ∧ ai_search_metric none = ⟨5000, 50, 7.5, none⟩ := by
  have H := claim4_default_metric_amended 0 0 [tie_row_east]
  have hscan : find_nearest_scan 0 0 [tie_row_east]
      = some ((tie_row_east.1, none), calculate_distance_km 0 0 0 1) := rfl
  exact ⟨H.2.1 tie_row_east.1 (calculate_distance_km 0 0 0 1) hscan,
    (claim4_default_metric_amended 0 0 []).2.2.1 rfl,
    H.2.2.2.1⟩
